import Mathlib

/-
Shallow embedding of the authentication / authorization core of the
Jangab-water test-python-mysql board service (FastAPI + SQLAlchemy).

Source layout mirrored here:
  app/auth.py      -> credential store (passlib bcrypt wrappers), token
                      codec (python-jose JWT wrappers), identity resolvers
  app/services.py  -> Services namespace (user and post data operations)
  app/routers/posts.py -> PostsRouter namespace (HTTP handlers)
  app/routers/auth.py  -> AuthRouter namespace (register, login)
  app/routers/views.py -> ViewsRouter namespace (HTML form handlers)

Machine conventions: timestamps are Nat unix seconds (python-jose encodes
the exp claim with timegm, whole seconds); HTTP outcomes are an ApiResult
sum; database rows are Lean structures and the relational store is a pair
of lists, with SQL WHERE applied before OFFSET and LIMIT as SQLAlchemy
emits it.
-/

namespace Board

/- ===== Credential store: app/auth.py lines 16-39 plus the passlib
   CryptContext semantics it delegates to ===== -/

/-- Error raised by passlib when the hash string is not identifiable as any
configured scheme (passlib.exc.UnknownHashError, a ValueError); the wrapper
verify_password in app/auth.py has no handler for it. -/
inductive PasslibError where
  | unknownHash
deriving Repr, DecidableEq

/-- A credential-hash string as passlib sees it: either a well-formed bcrypt
modular-crypt string, abstracted to its parsed cost, salt and digest fields,
or a string that no configured scheme identifies. -/
inductive HashStr where
  | bcrypt (cost salt digest : Nat)
  | malformed (s : String)
deriving Repr, DecidableEq

/-- The UTF-8 byte sequence of a string, as Nat values. This is the byte
content of String.toUTF8, whose core definition is the flatMap of
String.utf8EncodeChar over the character list. -/
def utf8Bytes (s : String) : List Nat :=
  (s.data.flatMap String.utf8EncodeChar).map (fun b => b.toNat)

/-- The truncation rule of app/auth.py lines 31 and 38:
plain_password.encode(utf-8) cut to its first 72 bytes. -/
def truncate72 (password : String) : List Nat :=
  (utf8Bytes password).take 72

/-- The bcrypt key-derivation primitive, idealized as an executable
deterministic function of cost, salt and key bytes. Only its determinism is
used by the theorems below; the primitive itself is an external collaborator
of the repository. -/
def bcrypt_digest (cost salt : Nat) (key : List Nat) : Nat :=
  key.foldl (fun a b => a * 257 + b + 1) (cost * 31 + salt)

/-- app/auth.py get_password_hash: truncate to 72 UTF-8 bytes, then hash with
a per-call salt (the salt is drawn by passlib; here it is a parameter). -/
def get_password_hash (cost salt : Nat) (password : String) : HashStr :=
  .bcrypt cost salt (bcrypt_digest cost salt (truncate72 password))

/-- app/auth.py verify_password: truncate to 72 UTF-8 bytes and call
pwd_context.verify. Passlib recomputes the digest with the salt embedded in
the hash and compares; on a hash string it cannot identify it raises
UnknownHashError, which the wrapper does not catch. -/
def verify_password (plain_password : String) (hashed_password : HashStr) :
    Except PasslibError Bool :=
  match hashed_password with
  | .malformed _ => .error .unknownHash
  | .bcrypt cost salt digest =>
      .ok (bcrypt_digest cost salt (truncate72 plain_password) == digest)

/- ===== Token codec: app/auth.py lines 22-51 plus the python-jose
   jwt.encode / jwt.decode semantics it delegates to ===== -/

/-- Default of os.getenv(SECRET_KEY, ...) in app/auth.py line 23; the
process-wide symmetric signing key. -/
def SECRET_KEY : String := "your-secret-key-change-this-in-production"

/-- app/auth.py line 25. -/
def ACCESS_TOKEN_EXPIRE_MINUTES : Nat := 30

/-- The claim set of a token: optional subject username and expiry in unix
seconds (python-jose requires sub, when present, to be a string). -/
structure TokenPayload where
  sub : Option String
  exp : Nat
deriving Repr, DecidableEq

/-- Idealized HMAC signature: a symbolic pair of the signing key and the
signed payload, so two signatures agree exactly when key and payload do. -/
structure Signature where
  key : String
  signed : TokenPayload
deriving Repr, DecidableEq

/-- A structurally well-formed JWT: payload plus signature. -/
structure Token where
  payload : TokenPayload
  sig : Signature
deriving Repr, DecidableEq

inductive JWTError where
  | badSignature
  | expiredSignature
  | malformedToken
deriving Repr, DecidableEq

/-- python-jose jwt.encode: sign the claims with the given key. -/
def jwt_encode (payload : TokenPayload) (key : String) : Token :=
  { payload := payload, sig := { key := key, signed := payload } }

/-- python-jose jwt.decode at check time now: verify the signature against
the given key, then validate expiry; the expiry check in jose.jwt is
  if exp < now then raise ExpiredSignatureError
(zero leeway), so a token is rejected exactly when exp is strictly in the
past. -/
def jwt_decode (t : Token) (key : String) (now : Nat) :
    Except JWTError TokenPayload :=
  if t.sig = { key := key, signed := t.payload } then
    if t.payload.exp < now then .error .expiredSignature
    else .ok t.payload
  else .error .badSignature

/-- app/auth.py create_access_token, with the ambient clock and the subject
claim made explicit: callers pass data = add the sub claim, and exp is now
plus the delta, defaulting to 15 minutes. -/
def create_access_token (now : Nat) (sub : String)
    (expires_delta : Option Nat) : Token :=
  let expire := match expires_delta with
    | some d => now + d
    | none => now + 15 * 60
  jwt_encode { sub := some sub, exp := expire } SECRET_KEY

/-- The wire form of a token as stored in a header or cookie: either the
compact serialization of a well-formed token or an arbitrary string that
fails JWT structural parsing. -/
inductive TokenWire where
  | wellFormed (t : Token)
  | garbage (s : String)
deriving Repr, DecidableEq

/-- jwt.decode on a wire string: structural parse failure raises JWTError
(malformed token), otherwise decode the parsed token. -/
def jwt_decode_wire (w : TokenWire) (key : String) (now : Nat) :
    Except JWTError TokenPayload :=
  match w with
  | .garbage _ => .error .malformedToken
  | .wellFormed t => jwt_decode t key now

/- ===== Data model: app/models.py (fields as used throughout the code and
   described by the spec) and the relational store ===== -/

/-- The users table row. -/
structure User where
  id : Nat
  username : String
  hashed_password : HashStr
  is_admin : Bool
  created_at : Nat
deriving Repr, DecidableEq

/-- The posts table row. -/
structure Post where
  id : Nat
  title : String
  content : String
  author_id : Nat
  created_at : Nat
  updated_at : Option Nat
  is_deleted : Bool
deriving Repr, DecidableEq

/-- The relational store, rows in insertion order. -/
structure DB where
  users : List User
  posts : List Post
deriving Repr, DecidableEq

/- ===== app/services.py ===== -/

namespace Services

/-- services.get_user_by_username: select User where username matches,
scalar_one_or_none. -/
def get_user_by_username (db : DB) (username : String) : Option User :=
  db.users.find? (fun u => u.username == username)

/-- services.get_post: select Post where id matches, adding
is_deleted == False unless include_deleted; scalar_one_or_none. -/
def get_post (db : DB) (post_id : Nat) (include_deleted : Bool) :
    Option Post :=
  db.posts.find? (fun p =>
    p.id == post_id && (include_deleted || p.is_deleted == false))

/-- services.get_posts: select Post with offset skip and limit, adding
is_deleted == False unless include_deleted. SQL applies WHERE before
OFFSET and LIMIT. -/
def get_posts (db : DB) (skip limit : Nat) (include_deleted : Bool) :
    List Post :=
  (((if include_deleted then db.posts
     else db.posts.filter (fun p => p.is_deleted == false)).drop skip).take
    limit)

/-- schemas.PostUpdate: both fields optional; none models a field not
supplied in the request (model_dump exclude_unset drops it). -/
structure PostUpdate where
  title : Option String
  content : Option String
deriving Repr, DecidableEq

/-- The setattr loop of services.update_post over the supplied fields. -/
def apply_post_update (p : Post) (u : PostUpdate) : Post :=
  let p1 := match u.title with
    | none => p
    | some t => { p with title := t }
  match u.content with
  | none => p1
  | some c => { p1 with content := c }

/-- ORM in-place row mutation followed by commit: the row with the given id
is replaced in the table. -/
def replace_post (posts : List Post) (post_id : Nat) (p2 : Post) :
    List Post :=
  posts.map (fun q => if q.id == post_id then p2 else q)

/-- services.update_post: look up with include_deleted=False; on miss return
None, otherwise setattr the supplied fields and commit. -/
def update_post (db : DB) (post_id : Nat) (post : PostUpdate) :
    Option Post × DB :=
  match get_post db post_id false with
  | none => (none, db)
  | some db_post =>
      let p2 := apply_post_update db_post post
      (some p2, { db with posts := replace_post db.posts post_id p2 })

/-- services.soft_delete_post: look up with include_deleted=False; on miss
return None, otherwise set is_deleted True and commit. -/
def soft_delete_post (db : DB) (post_id : Nat) : Option Post × DB :=
  match get_post db post_id false with
  | none => (none, db)
  | some db_post =>
      let p2 := { db_post with is_deleted := true }
      (some p2, { db with posts := replace_post db.posts post_id p2 })

/-- services.hard_delete_post: look up with include_deleted=True; on miss
return None, otherwise delete the row and commit. -/
def hard_delete_post (db : DB) (post_id : Nat) : Option Post × DB :=
  match get_post db post_id true with
  | none => (none, db)
  | some db_post =>
      (some db_post,
       { db with posts := db.posts.filter (fun q => q.id != post_id) })

/-- schemas.UserCreate: the registration payload. Field length constraints
are request validation, outside this core per the spec. -/
structure UserCreate where
  username : String
  password : String
deriving Repr, DecidableEq

/-- The duplicate-username ValueError of services.create_user. -/
inductive CreateUserError where
  | usernameExists
deriving Repr, DecidableEq

/-- services.create_user: reject a taken username, otherwise hash the
password and insert the row with the given is_admin flag. The bcrypt cost
and salt, the autoincrement id, and the clock are explicit parameters. -/
def create_user (db : DB) (user : UserCreate) (is_admin : Bool)
    (cost salt new_id now : Nat) : Except CreateUserError (User × DB) :=
  match get_user_by_username db user.username with
  | some _ => .error .usernameExists
  | none =>
      let db_user : User :=
        { id := new_id, username := user.username,
          hashed_password := get_password_hash cost salt user.password,
          is_admin := is_admin, created_at := now }
      .ok (db_user, { db with users := db.users ++ [db_user] })

end Services

/- ===== HTTP outcome type shared by the routers ===== -/

/-- Outcome of a JSON API handler: a response body or an HTTPException
status code. -/
inductive ApiResult (α : Type) where
  | ok (value : α)
  | httpError (status : Nat)
deriving Repr, DecidableEq

/-- Whether the handler produced a success response. -/
def ApiResult.isOk {α : Type} : ApiResult α → Bool
  | .ok _ => true
  | .httpError _ => false

/- ===== app/routers/posts.py ===== -/

namespace PostsRouter

/-- routers/posts.py update_post (PUT): get_post with include_deleted=False,
404 on miss; 403 unless author or admin; then services.update_post. The
service returning None after the handler found the post cannot happen in a
single request; it would surface as a response-model failure (500). -/
def update_post (db : DB) (post_id : Nat) (post : Services.PostUpdate)
    (current_user : User) : ApiResult Post × DB :=
  match Services.get_post db post_id false with
  | none => (.httpError 404, db)
  | some db_post =>
      if db_post.author_id != current_user.id && !current_user.is_admin then
        (.httpError 403, db)
      else
        match Services.update_post db post_id post with
        | (some updated, db2) => (.ok updated, db2)
        | (none, db2) => (.httpError 500, db2)

/-- routers/posts.py delete_post (DELETE): get_post with
include_deleted=False, 404 on miss; 403 unless author or admin; then
services.soft_delete_post. -/
def delete_post (db : DB) (post_id : Nat) (current_user : User) :
    ApiResult Post × DB :=
  match Services.get_post db post_id false with
  | none => (.httpError 404, db)
  | some db_post =>
      if db_post.author_id != current_user.id && !current_user.is_admin then
        (.httpError 403, db)
      else
        match Services.soft_delete_post db post_id with
        | (some deleted, db2) => (.ok deleted, db2)
        | (none, db2) => (.httpError 500, db2)

/-- routers/posts.py hard_delete_post (DELETE /hard): the require_admin
dependency rejects non-admins with 403 before the handler body runs; then
services.hard_delete_post, 404 on miss. -/
def hard_delete_post (db : DB) (post_id : Nat) (current_user : User) :
    ApiResult Post × DB :=
  if !current_user.is_admin then (.httpError 403, db)
  else
    match Services.hard_delete_post db post_id with
    | (none, db2) => (.httpError 404, db2)
    | (some db_post, db2) => (.ok db_post, db2)

end PostsRouter

/- ===== Cookie identity resolver: app/auth.py lines 97-151 ===== -/

/-- The stored cookie value: whether it carries the Bearer marker that
set_auth_cookie writes in front of the token string, and the token wire
string itself. -/
structure CookieValue where
  bearerTagged : Bool
  body : TokenWire
deriving Repr, DecidableEq

/-- The prefix-stripping step of get_current_user_optional: if the stored
value starts with the Bearer marker, drop it; either way what remains is the
token wire string. -/
def stripBearerTag (v : CookieValue) : TokenWire := v.body

/-- The request state the resolver consults: the access_token cookie, when
present. -/
structure Request where
  cookie : Option CookieValue
deriving Repr, DecidableEq

/-- app/auth.py get_current_user_optional: read the access_token cookie
(absent gives None), strip the Bearer marker, jwt.decode under the process
key catching JWTError (gives None), require the sub claim (absent gives
None), then look the subject username up in the user store and return the
lookup result as is. -/
def get_current_user_optional (db : DB) (req : Request) (now : Nat) :
    Option User :=
  match req.cookie with
  | none => none
  | some v =>
      match jwt_decode_wire (stripBearerTag v) SECRET_KEY now with
      | .error _ => none
      | .ok payload =>
          match payload.sub with
          | none => none
          | some username => Services.get_user_by_username db username

/- ===== app/routers/auth.py ===== -/

namespace AuthRouter

/-- routers/auth.py register (POST /auth/register): services.create_user
with is_admin=False; the duplicate-username ValueError becomes a 400. -/
def register (db : DB) (user : Services.UserCreate)
    (cost salt new_id now : Nat) : ApiResult User × DB :=
  match Services.create_user db user false cost salt new_id now with
  | .error _ => (.httpError 400, db)
  | .ok (db_user, db2) => (.ok db_user, db2)

end AuthRouter

/- ===== app/routers/views.py (registration form handler) ===== -/

namespace ViewsRouter

/-- Outcome of the HTML registration form handler: re-render the form with
an error message, or redirect with the auth cookie set to a fresh token. -/
inductive RegisterSubmitResult where
  | formError (message : String)
  | redirectWithCookie (token : Token)
deriving Repr, DecidableEq

/-- routers/views.py register_submit (POST /register): reject mismatched
password confirmation, call services.create_user with is_admin=False
(ValueError re-renders the form), then auto-login by issuing a 30-minute
token and setting the cookie on the redirect. -/
def register_submit (db : DB) (username password password_confirm : String)
    (cost salt new_id now : Nat) : RegisterSubmitResult × DB :=
  if password != password_confirm then
    (.formError "Passwords do not match", db)
  else
    match Services.create_user db { username := username, password := password }
        false cost salt new_id now with
    | .error _ => (.formError "Username already exists", db)
    | .ok (_, db2) =>
        (.redirectWithCookie
          (create_access_token now username
            (some (ACCESS_TOKEN_EXPIRE_MINUTES * 60))), db2)

end ViewsRouter

end Board

namespace Board

/- ===== Helper lemmas about row lookup ===== -/

/-- find? returns the designated element when it satisfies the predicate and
is the only element of the list that does. -/
theorem find_unique {α : Type} (l : List α) (p : α) (f : α → Bool)
    (hp : p ∈ l) (hf : f p = true)
    (huniq : ∀ q ∈ l, f q = true → q = p) :
    l.find? f = some p := by
  have h1 : (l.find? f).isSome := by
    rw [List.find?_isSome]
    exact ⟨p, hp, hf⟩
  match h2 : l.find? f with
  | some q =>
      have hq1 := List.find?_some h2
      have hq2 := List.mem_of_find?_eq_some h2
      rw [huniq q hq2 hq1]
  | none => rw [h2] at h1; simp at h1

/-- A post whose id is unique in the table is returned by the
admin-inclusive lookup. -/
theorem get_post_incl (db : DB) (p : Post) (hp : p ∈ db.posts)
    (huniq : ∀ q ∈ db.posts, q.id = p.id → q = p) :
    Services.get_post db p.id true = some p := by
  apply find_unique db.posts p _ hp
  · simp
  · intro q hq hfq
    simp at hfq
    exact huniq q hq hfq

/-- An active post whose id is unique in the table is returned by the
deleted-excluding lookup. -/
theorem get_post_active (db : DB) (p : Post) (hp : p ∈ db.posts)
    (hact : p.is_deleted = false)
    (huniq : ∀ q ∈ db.posts, q.id = p.id → q = p) :
    Services.get_post db p.id false = some p := by
  apply find_unique db.posts p _ hp
  · simp [hact]
  · intro q hq hfq
    simp at hfq
    exact huniq q hq hfq.1

/-- A soft-deleted post whose id is unique in the table is invisible to the
deleted-excluding lookup. -/
theorem get_post_deleted_none (db : DB) (p : Post) (hdel : p.is_deleted = true)
    (huniq : ∀ q ∈ db.posts, q.id = p.id → q = p) :
    Services.get_post db p.id false = none := by
  rw [Services.get_post, List.find?_eq_none]
  intro q hq hfq
  simp at hfq
  have := huniq q hq hfq.1
  subst this
  rw [hdel] at hfq
  exact absurd hfq.2 (by simp)

/-- The update service on an active post with a unique id applies the
supplied fields and commits. -/
theorem services_update_post_eq (db : DB) (p : Post)
    (upd : Services.PostUpdate) (hp : p ∈ db.posts)
    (hact : p.is_deleted = false)
    (huniq : ∀ q ∈ db.posts, q.id = p.id → q = p) :
    Services.update_post db p.id upd =
      (some (Services.apply_post_update p upd),
       { db with posts := Services.replace_post db.posts p.id (Services.apply_post_update p upd) }) := by
  unfold Services.update_post
  rw [get_post_active db p hp hact huniq]

/-- The soft-delete service on an active post with a unique id sets the
tombstone flag and commits. -/
theorem services_soft_delete_eq (db : DB) (p : Post) (hp : p ∈ db.posts)
    (hact : p.is_deleted = false)
    (huniq : ∀ q ∈ db.posts, q.id = p.id → q = p) :
    Services.soft_delete_post db p.id =
      (some { p with is_deleted := true },
       { db with posts := Services.replace_post db.posts p.id { p with is_deleted := true } }) := by
  unfold Services.soft_delete_post
  rw [get_post_active db p hp hact huniq]

/-- The hard-delete service on any stored post with a unique id removes the
row and commits, whatever the deleted flag. -/
theorem services_hard_delete_eq (db : DB) (p : Post) (hp : p ∈ db.posts)
    (huniq : ∀ q ∈ db.posts, q.id = p.id → q = p) :
    Services.hard_delete_post db p.id =
      (some p,
       { db with posts := db.posts.filter (fun q => q.id != p.id) }) := by
  unfold Services.hard_delete_post
  rw [get_post_incl db p hp huniq]

/- ===== Helper lemmas about the post router handlers ===== -/

/-- The PUT handler on an active post with a unique id reduces to the
owner-or-admin guard followed by the committed update. -/
theorem router_update_active (db : DB) (u : User) (p : Post)
    (upd : Services.PostUpdate) (hp : p ∈ db.posts)
    (hact : p.is_deleted = false)
    (huniq : ∀ q ∈ db.posts, q.id = p.id → q = p) :
    PostsRouter.update_post db p.id upd u =
      if p.author_id != u.id && !u.is_admin then (.httpError 403, db)
      else
        (.ok (Services.apply_post_update p upd),
         { db with posts := Services.replace_post db.posts p.id (Services.apply_post_update p upd) }) := by
  unfold PostsRouter.update_post
  rw [get_post_active db p hp hact huniq,
    services_update_post_eq db p upd hp hact huniq]

/-- The DELETE handler on an active post with a unique id reduces to the
owner-or-admin guard followed by the committed soft delete. -/
theorem router_delete_active (db : DB) (u : User) (p : Post)
    (hp : p ∈ db.posts) (hact : p.is_deleted = false)
    (huniq : ∀ q ∈ db.posts, q.id = p.id → q = p) :
    PostsRouter.delete_post db p.id u =
      if p.author_id != u.id && !u.is_admin then (.httpError 403, db)
      else
        (.ok { p with is_deleted := true },
         { db with posts := Services.replace_post db.posts p.id { p with is_deleted := true } }) := by
  unfold PostsRouter.delete_post
  rw [get_post_active db p hp hact huniq,
    services_soft_delete_eq db p hp hact huniq]

/-- The PUT handler answers 404 on a soft-deleted post with a unique id,
whoever the acting user is. -/
theorem router_update_deleted (db : DB) (u : User) (p : Post)
    (upd : Services.PostUpdate) (hdel : p.is_deleted = true)
    (huniq : ∀ q ∈ db.posts, q.id = p.id → q = p) :
    PostsRouter.update_post db p.id upd u = (.httpError 404, db) := by
  unfold PostsRouter.update_post
  rw [get_post_deleted_none db p hdel huniq]

/-- The DELETE handler answers 404 on a soft-deleted post with a unique id,
whoever the acting user is. -/
theorem router_delete_deleted (db : DB) (u : User) (p : Post)
    (hdel : p.is_deleted = true)
    (huniq : ∀ q ∈ db.posts, q.id = p.id → q = p) :
    PostsRouter.delete_post db p.id u = (.httpError 404, db) := by
  unfold PostsRouter.delete_post
  rw [get_post_deleted_none db p hdel huniq]

/-- The hard-delete handler on a stored post with a unique id reduces to the
admin guard followed by the committed purge. -/
theorem router_hard_delete (db : DB) (u : User) (p : Post)
    (hp : p ∈ db.posts)
    (huniq : ∀ q ∈ db.posts, q.id = p.id → q = p) :
    PostsRouter.hard_delete_post db p.id u =
      if !u.is_admin then (.httpError 403, db)
      else
        (.ok p, { db with posts := db.posts.filter (fun q => q.id != p.id) }) := by
  unfold PostsRouter.hard_delete_post
  rw [services_hard_delete_eq db p hp huniq]

/- ===== Concrete store used by closed statements ===== -/

/-- The bootstrap admin account. -/
def adminUser : User :=
  { id := 1, username := "admin", hashed_password := .bcrypt 12 0 0,
    is_admin := true, created_at := 0 }

/-- A regular member. -/
def aliceUser : User :=
  { id := 2, username := "alice", hashed_password := .bcrypt 12 1 1,
    is_admin := false, created_at := 0 }

/-- Another regular member. -/
def bobUser : User :=
  { id := 3, username := "bob", hashed_password := .bcrypt 12 2 2,
    is_admin := false, created_at := 0 }

/-- An active post owned by alice. -/
def helloPost : Post :=
  { id := 1, title := "Hello", content := "World", author_id := 2,
    created_at := 0, updated_at := none, is_deleted := false }

/-- A soft-deleted post owned by alice. -/
def tombPost : Post :=
  { id := 2, title := "Gone", content := "Tombstoned", author_id := 2,
    created_at := 0, updated_at := none, is_deleted := true }

/-- A small concrete store with unique ids. -/
def exDB : DB :=
  { users := [adminUser, aliceUser, bobUser], posts := [helloPost, tombPost] }

/- ===== Claim theorems ===== -/

/-- C1, counterexample to the claim as stated: the admin acts on a stored
soft-deleted post, so the claim requires update and soft-delete to succeed,
but both handlers answer 404 because the lookup excludes deleted rows before
the authorization check runs. -/
theorem c1_counterexample :
    adminUser.is_admin = true ∧ tombPost ∈ exDB.posts ∧
    tombPost.is_deleted = true ∧
    (PostsRouter.update_post exDB tombPost.id
      { title := some "New", content := none } adminUser).1 = .httpError 404 ∧
    (PostsRouter.delete_post exDB tombPost.id adminUser).1 = .httpError 404 := by
  decide

/-- C1 amended: for a stored post with a unique id, update and soft-delete
succeed iff the actor is admin or the owner WHEN the post is active; when
the post is soft-deleted they answer 404 for every actor, admins included;
hard-delete succeeds iff the actor is admin, whatever the deleted flag. -/
theorem c1_authorization_matrix (db : DB) (u : User) (p : Post)
    (upd : Services.PostUpdate) (hp : p ∈ db.posts)
    (huniq : ∀ q ∈ db.posts, q.id = p.id → q = p) :
    (p.is_deleted = false →
      (((PostsRouter.update_post db p.id upd u).1.isOk = true ↔
          (u.is_admin = true ∨ u.id = p.author_id)) ∧
       ((PostsRouter.delete_post db p.id u).1.isOk = true ↔
          (u.is_admin = true ∨ u.id = p.author_id)))) ∧
    (p.is_deleted = true →
      ((PostsRouter.update_post db p.id upd u).1 = .httpError 404 ∧
       (PostsRouter.delete_post db p.id u).1 = .httpError 404)) ∧
    ((PostsRouter.hard_delete_post db p.id u).1.isOk = true ↔
      u.is_admin = true) := by
  refine ⟨?_, ?_, ?_⟩
  · intro hact
    rw [router_update_active db u p upd hp hact huniq,
      router_delete_active db u p hp hact huniq]
    cases hadm : u.is_admin with
    | true => simp [ApiResult.isOk]
    | false =>
        by_cases hown : p.author_id = u.id
        · simp [ApiResult.isOk, hown]
        · simp [ApiResult.isOk, hown, Ne.symm hown]
  · intro hdel
    rw [router_update_deleted db u p upd hdel huniq,
      router_delete_deleted db u p hdel huniq]
    exact ⟨rfl, rfl⟩
  · rw [router_hard_delete db u p hp huniq]
    cases hadm : u.is_admin with
    | true => simp [ApiResult.isOk]
    | false => simp [ApiResult.isOk]

/-- C1 witness: on the concrete store, the owner updates and the admin
soft-deletes the active post, the admin hard-deletes the soft-deleted one. -/
theorem c1_authorization_matrix_witness :
    (PostsRouter.update_post exDB helloPost.id
      { title := none, content := none } aliceUser).1.isOk = true ∧
    (PostsRouter.delete_post exDB helloPost.id adminUser).1.isOk = true ∧
    (PostsRouter.hard_delete_post exDB tombPost.id adminUser).1.isOk = true := by
  refine ⟨?_, ?_, ?_⟩
  · exact ((c1_authorization_matrix exDB aliceUser helloPost
      { title := none, content := none } (by decide) (by decide)).1
        (by decide)).1.mpr (Or.inr (by decide))
  · exact ((c1_authorization_matrix exDB adminUser helloPost
      { title := none, content := none } (by decide) (by decide)).1
        (by decide)).2.mpr (Or.inl (by decide))
  · exact (c1_authorization_matrix exDB adminUser tombPost
      { title := none, content := none } (by decide) (by decide)).2.2.mpr
        (by decide)

/-- C6: a non-admin acting on an active, stored post of someone else gets an
authorization-forbidden 403 from the PUT handler, not a 404. -/
theorem c6_forbidden_not_notfound (db : DB) (u : User) (p : Post)
    (upd : Services.PostUpdate) (hadm : u.is_admin = false)
    (hp : p ∈ db.posts) (hact : p.is_deleted = false)
    (hown : p.author_id ≠ u.id)
    (huniq : ∀ q ∈ db.posts, q.id = p.id → q = p) :
    (PostsRouter.update_post db p.id upd u).1 = .httpError 403 := by
  rw [router_update_active db u p upd hp hact huniq]
  simp [hadm, hown]

/-- C6 witness: bob, a non-admin who does not own the active post of alice,
gets 403 from the PUT handler on the concrete store. -/
theorem c6_forbidden_not_notfound_witness :
    (PostsRouter.update_post exDB helloPost.id
      { title := some "X", content := none } bobUser).1 = .httpError 403 :=
  c6_forbidden_not_notfound exDB bobUser helloPost
    { title := some "X", content := none } (by decide) (by decide) (by decide)
    (by decide) (by decide)

/-- C3: a stored soft-deleted post with a unique id is absent from the paged
list and from lookup-by-id when deleted rows are excluded, and reachable in
both when they are included. -/
theorem c3_soft_deleted_visibility (db : DB) (p : Post) (skip limit : Nat)
    (hp : p ∈ db.posts) (hdel : p.is_deleted = true)
    (huniq : ∀ q ∈ db.posts, q.id = p.id → q = p) :
    p ∉ Services.get_posts db skip limit false ∧
    Services.get_post db p.id false = none ∧
    p ∈ Services.get_posts db 0 db.posts.length true ∧
    Services.get_post db p.id true = some p := by
  refine ⟨?_, get_post_deleted_none db p hdel huniq, ?_,
    get_post_incl db p hp huniq⟩
  · intro hmem
    unfold Services.get_posts at hmem
    simp only [Bool.false_eq_true, if_false] at hmem
    have h1 := List.mem_of_mem_take hmem
    have h2 := List.mem_of_mem_drop h1
    rw [List.mem_filter, hdel] at h2
    exact absurd h2.2 (by simp)
  · unfold Services.get_posts
    simp only [if_true]
    rw [List.drop_zero, List.take_length]
    exact hp

/-- C3 witness: on the concrete store, the soft-deleted post is hidden from
the first page and from the excluding lookup, and reachable under the
inclusive list and lookup. -/
theorem c3_soft_deleted_visibility_witness :
    tombPost ∉ Services.get_posts exDB 0 10 false ∧
    Services.get_post exDB tombPost.id false = none ∧
    tombPost ∈ Services.get_posts exDB 0 exDB.posts.length true ∧
    Services.get_post exDB tombPost.id true = some tombPost :=
  c3_soft_deleted_visibility exDB tombPost 0 10 (by decide) (by decide)
    (by decide)

/-- C2, counterexample to the claim as stated: on a hash string no scheme
identifies, verify_password propagates the passlib UnknownHashError rather
than returning false. -/
theorem c2_counterexample :
    verify_password "password123" (.malformed "not-a-bcrypt-hash")
        = .error .unknownHash ∧
    verify_password "password123" (.malformed "not-a-bcrypt-hash")
        ≠ .ok false :=
  ⟨rfl, by simp [verify_password]⟩

/-- C2 amended: on a malformed (unidentifiable) credential-hash string,
password verification raises the passlib unknown-hash error for every
password; it does not return a boolean (in particular it never returns
true), because verify_password has no handler around pwd_context.verify. -/
theorem c2_malformed_hash_raises (password s : String) :
    verify_password password (.malformed s) = .error .unknownHash := rfl

/-- Decoding a token under its own signing key reduces to the expiry check:
python-jose rejects exactly when exp is strictly in the past. -/
theorem jwt_decode_encode (payload : TokenPayload) (key : String) (now : Nat) :
    jwt_decode (jwt_encode payload key) key now =
      if payload.exp < now then .error .expiredSignature else .ok payload := by
  unfold jwt_encode jwt_decode
  simp

/-- C5, counterexample to the claim as stated: a token issued at time 0 with
ttl 60 is checked at exactly time 60 = t0 + T; the claim requires the check
to fail, but jose only rejects exp strictly below now, so it succeeds. -/
theorem c5_counterexample :
    (jwt_decode (create_access_token 0 "alice" (some 60)) SECRET_KEY 60).isOk
      = true := by decide

/-- C5 amended: a token issued at t0 with ttl T passes verification exactly
when checked at a time at or before t0 + T (whole seconds): it passes
strictly before expiry and also at the expiry instant itself, and fails at
every strictly later time. -/
theorem c5_token_expiry (t0 T t : Nat) (s : String) :
    (jwt_decode (create_access_token t0 s (some T)) SECRET_KEY t).isOk = true
      ↔ t ≤ t0 + T := by
  rw [show create_access_token t0 s (some T)
      = jwt_encode { sub := some s, exp := t0 + T } SECRET_KEY from rfl,
    jwt_decode_encode,
    show ({ sub := some s, exp := t0 + T } : TokenPayload).exp = t0 + T
      from rfl]
  by_cases h : t ≤ t0 + T
  · rw [if_neg (by omega)]
    exact iff_of_true rfl h
  · rw [if_pos (by omega)]
    exact iff_of_false (by decide) h

/-- C7: hashing a password and verifying the same password against the
result returns true, for every password of every length, because hash and
verify apply the same truncation to the first 72 UTF-8 bytes before the
primitive runs. -/
theorem c7_hash_verify_roundtrip (cost salt : Nat) (password : String) :
    verify_password password (get_password_hash cost salt password)
      = .ok true := by
  simp [verify_password, get_password_hash]

/-- C8: a token signed under any key other than the process-wide signing key
is rejected by verification, whatever claim set it carries. -/
theorem c8_wrong_key_rejected (k : String) (payload : TokenPayload) (t : Nat)
    (hk : k ≠ SECRET_KEY) :
    jwt_decode (jwt_encode payload k) SECRET_KEY t = .error .badSignature := by
  simp [jwt_encode, jwt_decode, Signature.mk.injEq, hk]

/-- C8 witness: a concrete token signed under another key, carrying an admin
subject and a far-future expiry, is rejected. -/
theorem c8_wrong_key_rejected_witness :
    jwt_decode (jwt_encode { sub := some "admin", exp := 999999 } "other-key")
      SECRET_KEY 0 = .error .badSignature :=
  c8_wrong_key_rejected "other-key" { sub := some "admin", exp := 999999 } 0
    (by decide)

/-- C4: the cookie resolver is total with an explicit no-identity result: it
answers none when the cookie is absent, when decoding fails for any reason
(malformed, bad signature, expired), when the sub claim is missing, and when
the verified subject has no user row; and any user it does return is a row
of the user store freshly looked up under the verified subject username. -/
theorem c4_cookie_identity (db : DB) (req : Request) (now : Nat) :
    (req.cookie = none → get_current_user_optional db req now = none) ∧
    (∀ v e, req.cookie = some v →
      jwt_decode_wire (stripBearerTag v) SECRET_KEY now = .error e →
      get_current_user_optional db req now = none) ∧
    (∀ v payload, req.cookie = some v →
      jwt_decode_wire (stripBearerTag v) SECRET_KEY now = .ok payload →
      payload.sub = none → get_current_user_optional db req now = none) ∧
    (∀ v payload username, req.cookie = some v →
      jwt_decode_wire (stripBearerTag v) SECRET_KEY now = .ok payload →
      payload.sub = some username →
      Services.get_user_by_username db username = none →
      get_current_user_optional db req now = none) ∧
    (∀ u, get_current_user_optional db req now = some u →
      u ∈ db.users ∧ ∃ v payload, req.cookie = some v ∧
        jwt_decode_wire (stripBearerTag v) SECRET_KEY now = .ok payload ∧
        payload.sub = some u.username ∧
        Services.get_user_by_username db u.username = some u) := by
  refine ⟨?_, ?_, ?_, ?_, ?_⟩
  · intro h
    unfold get_current_user_optional
    rw [h]
  · intro v e hv hd
    unfold get_current_user_optional
    rw [hv]
    dsimp only
    rw [hd]
  · intro v payload hv hd hs
    unfold get_current_user_optional
    rw [hv]
    dsimp only
    rw [hd]
    dsimp only
    rw [hs]
  · intro v payload username hv hd hs hu
    unfold get_current_user_optional
    rw [hv]
    dsimp only
    rw [hd]
    dsimp only
    rw [hs]
    exact hu
  · intro u hu
    unfold get_current_user_optional at hu
    cases hv : req.cookie with
    | none => rw [hv] at hu; exact absurd hu (by simp)
    | some v =>
        rw [hv] at hu
        dsimp only at hu
        cases hd : jwt_decode_wire (stripBearerTag v) SECRET_KEY now with
        | error e => rw [hd] at hu; exact absurd hu (by simp)
        | ok payload =>
            rw [hd] at hu
            dsimp only at hu
            cases hs : payload.sub with
            | none => rw [hs] at hu; exact absurd hu (by simp)
            | some username =>
                rw [hs] at hu
                dsimp only at hu
                unfold Services.get_user_by_username at hu
                have hmem : u ∈ db.users := List.mem_of_find?_eq_some hu
                have hname := List.find?_some hu
                have hname2 : u.username = username := by
                  simpa using hname
                refine ⟨hmem, v, payload, rfl, hd, ?_, ?_⟩
                · rw [hname2]; exact hs
                · unfold Services.get_user_by_username
                  rw [hname2]; exact hu

/-- C4 witness: on the concrete store, a request with no cookie resolves to
no identity. -/
theorem c4_cookie_identity_witness :
    get_current_user_optional exDB { cookie := none } 0 = none :=
  (c4_cookie_identity exDB { cookie := none } 0).1 rfl

/-- C9: updating a stored active post with a unique id produces a post that
keeps its id, author, deleted flag and creation timestamp; a supplied title
or content replaces the old value and an omitted one keeps it. -/
theorem c9_update_frame (db : DB) (p : Post) (upd : Services.PostUpdate)
    (hp : p ∈ db.posts) (hact : p.is_deleted = false)
    (huniq : ∀ q ∈ db.posts, q.id = p.id → q = p) :
    ∃ p2, (Services.update_post db p.id upd).1 = some p2 ∧
      p2.id = p.id ∧ p2.author_id = p.author_id ∧
      p2.is_deleted = p.is_deleted ∧ p2.created_at = p.created_at ∧
      p2.title = upd.title.getD p.title ∧
      p2.content = upd.content.getD p.content := by
  refine ⟨Services.apply_post_update p upd, ?_, ?_, ?_, ?_, ?_, ?_, ?_⟩
  · rw [services_update_post_eq db p upd hp hact huniq]
  all_goals
    obtain ⟨ot, oc⟩ := upd
    cases ot <;> cases oc <;> simp [Services.apply_post_update]

/-- C9 witness: on the concrete store, an update supplying only a new title
keeps author, flag, timestamp and content of the active post. -/
theorem c9_update_frame_witness :
    ∃ p2, (Services.update_post exDB helloPost.id
        { title := some "New", content := none }).1 = some p2 ∧
      p2.id = helloPost.id ∧ p2.author_id = helloPost.author_id ∧
      p2.is_deleted = helloPost.is_deleted ∧
      p2.created_at = helloPost.created_at ∧
      p2.title = (some "New").getD helloPost.title ∧
      p2.content = (none : Option String).getD helloPost.content :=
  c9_update_frame exDB helloPost { title := some "New", content := none }
    (by decide) (by decide) (by decide)

/-- Whatever flag services.create_user is called with ends up on the created
row, which is appended to the user table. -/
theorem create_user_admin_flag (db : DB) (user : Services.UserCreate)
    (is_adm : Bool) (cost salt new_id now : Nat) (u : User) (db2 : DB)
    (h : Services.create_user db user is_adm cost salt new_id now
      = .ok (u, db2)) :
    u.is_admin = is_adm ∧ db2.users = db.users ++ [u] := by
  unfold Services.create_user at h
  cases hc : Services.get_user_by_username db user.username with
  | some w => rw [hc] at h; exact absurd h (by simp)
  | none =>
      rw [hc] at h
      simp only [Except.ok.injEq, Prod.mk.injEq] at h
      obtain ⟨hu, hdb⟩ := h
      subst hu
      subst hdb
      exact ⟨rfl, rfl⟩

/-- C10: both public registration entry points call the user-creation
service with the admin flag false, so the user a successful JSON register
returns has is_admin false, and any user either entry point adds to the
store has is_admin false. -/
theorem c10_registration_never_admin (db : DB) (user : Services.UserCreate)
    (username password password_confirm : String)
    (cost salt new_id now : Nat) :
    (∀ u, (AuthRouter.register db user cost salt new_id now).1 = .ok u →
      u.is_admin = false) ∧
    (∀ u, u ∈ ((AuthRouter.register db user cost salt new_id now).2).users →
      u ∉ db.users → u.is_admin = false) ∧
    (∀ u, u ∈ ((ViewsRouter.register_submit db username password
        password_confirm cost salt new_id now).2).users →
      u ∉ db.users → u.is_admin = false) := by
  refine ⟨?_, ?_, ?_⟩
  · intro u h
    unfold AuthRouter.register at h
    cases hc : Services.create_user db user false cost salt new_id now with
    | error e => rw [hc] at h; exact absurd h (by simp)
    | ok pr =>
        obtain ⟨u2, db2⟩ := pr
        rw [hc] at h
        simp only [ApiResult.ok.injEq] at h
        subst h
        exact (create_user_admin_flag _ _ _ _ _ _ _ _ _ hc).1
  · intro u hmem hnot
    unfold AuthRouter.register at hmem
    cases hc : Services.create_user db user false cost salt new_id now with
    | error e => rw [hc] at hmem; exact absurd hmem hnot
    | ok pr =>
        obtain ⟨u2, db2⟩ := pr
        rw [hc] at hmem
        have hflag := create_user_admin_flag db user false cost salt new_id
          now u2 db2 hc
        dsimp only at hmem
        rw [hflag.2] at hmem
        rcases List.mem_append.mp hmem with hold | hnew
        · exact absurd hold hnot
        · rw [List.mem_singleton.mp hnew]
          exact hflag.1
  · intro u hmem hnot
    unfold ViewsRouter.register_submit at hmem
    by_cases hpw : password != password_confirm
    · rw [if_pos hpw] at hmem
      exact absurd hmem hnot
    · rw [if_neg hpw] at hmem
      cases hc : Services.create_user db
          { username := username, password := password } false cost salt
          new_id now with
      | error e => rw [hc] at hmem; exact absurd hmem hnot
      | ok pr =>
          obtain ⟨u2, db2⟩ := pr
          rw [hc] at hmem
          have hflag := create_user_admin_flag db
            { username := username, password := password } false cost salt
            new_id now u2 db2 hc
          dsimp only at hmem
          rw [hflag.2] at hmem
          rcases List.mem_append.mp hmem with hold | hnew
          · exact absurd hold hnot
          · rw [List.mem_singleton.mp hnew]
            exact hflag.1

/-- C10 witness: a concrete successful JSON registration returns a
non-admin user. -/
theorem c10_registration_never_admin_witness :
    ({ id := 4, username := "carol",
       hashed_password := get_password_hash 12 3 "pw1234",
       is_admin := false, created_at := 7 } : User).is_admin = false :=
  (c10_registration_never_admin exDB
    { username := "carol", password := "pw1234" } "x" "y" "y" 12 3 4 7).1
    { id := 4, username := "carol",
      hashed_password := get_password_hash 12 3 "pw1234",
      is_admin := false, created_at := 7 } rfl

end Board
